import Mathlib

/-!
Verification development for the pipeline cache of
`crates/bevy_render/src/render_resource/pipeline_cache.rs`.

The Rust code is embedded shallowly:
* `HashMap` becomes an association list (`alookup` / `ainsert` / `aremove`),
  `HashSet` a duplicate-free list (`insertS`);
* `Arc<WgpuWrapper<ShaderModule>>` identity is embedded as a serial number
  allocated from a monotone counter, so "same `Arc` instance" is serial
  equality and every device creation yields a fresh serial;
* the external collaborators (wgpu device, naga_oil composer) are embedded as
  oracle data: per-shader fields record whether the external compiler or the
  device validation scope reports an error for that shader's source;
* the unbounded `while let` / recursion in `ShaderCache::clear` and
  `add_import_to_composer` is embedded with explicit fuel, `none` meaning the
  fuel was exhausted (the source diverges there).
-/

set_option autoImplicit false

namespace Bevy

universe u v

variable {K : Type u} {V : Type v}

/-- Lookup in an association-list map (embedding of `HashMap::get`). -/
def alookup [DecidableEq K] : List (K × V) → K → Option V
  | [], _ => none
  | (k', v) :: t, k => if k = k' then some v else alookup t k

/-- Remove a key from an association-list map (embedding of `HashMap::remove`). -/
def aremove [DecidableEq K] : List (K × V) → K → List (K × V)
  | [], _ => []
  | (k', v) :: t, k => if k' = k then aremove t k else (k', v) :: aremove t k

/-- Insert/replace a key in an association-list map (embedding of `HashMap::insert`). -/
def ainsert [DecidableEq K] (l : List (K × V)) (k : K) (v : V) : List (K × V) :=
  (k, v) :: aremove l k

/-- Add an element to a duplicate-free list (embedding of `HashSet::insert`). -/
def insertS {α : Type u} [DecidableEq α] (a : α) (l : List α) : List α :=
  if a ∈ l then l else a :: l

/-- Embedding of `ShaderImport` (defined outside `src/`; the variants are those
distinguished by `pipeline_cache.rs`: `AssetPath` vs the rest). The import is
used directly as the composer module name. -/
inductive ShaderImport
  | assetPath (path : String)
  | custom (name : String)
deriving DecidableEq

/-- Embedding of the `matches!(import, ShaderImport::AssetPath(_))` filter. -/
def ShaderImport.isAssetPath : ShaderImport → Bool
  | .assetPath _ => true
  | .custom _ => false

/-- Embedding of `ShaderDefVal` (`pipeline_cache.rs` lines 145-150). -/
inductive ShaderDefVal
  | bool (key : String) (value : Bool)
  | int (key : String) (value : Int)
  | uint (key : String) (value : Nat)
deriving DecidableEq

/-- Modelled from the spec: the `Shader` asset type lives outside `src/`.
The fields are exactly those read by `pipeline_cache.rs`
(`imports()`, `import_path()`, `shader_defs`, `validate_shader`), plus two
oracle fields embedding the responses of the external collaborators for this
shader's source: `composeError` is the external compiler's verdict
(`Composer::make_naga_module`) and `moduleError` is the device validation
scope's verdict (`pop_error_scope` after `create_shader_module`). -/
structure Shader where
  importPath : ShaderImport
  imports : List ShaderImport
  shaderDefs : List ShaderDefVal
  validateShader : Bool
  composeError : Option String
  moduleError : Option String
deriving DecidableEq

/-- Embedding of `PipelineCacheError` (`pipeline_cache.rs` lines 1128-1139).
Shader identities (`AssetId<Shader>`) are embedded as `Nat`. -/
inductive PipelineCacheError
  | shaderNotLoaded (id : Nat)
  | processShaderError (msg : String)
  | shaderImportNotYetAvailable
  | createShaderModule (desc : String)
deriving DecidableEq

/-- Classification used by `PipelineCache::process_pipeline`'s `Err` arm
(lines 1027-1045): `ShaderNotLoaded` and `ShaderImportNotYetAvailable` are
retried, the other two are terminal. -/
def PipelineCacheError.retryable : PipelineCacheError → Bool
  | .shaderNotLoaded _ => true
  | .shaderImportNotYetAvailable => true
  | .processShaderError _ => false
  | .createShaderModule _ => false

/-- Embedding of `ShaderData` (lines 127-133). Compiled shader modules
(`Arc<WgpuWrapper<ShaderModule>>`) are embedded as serial numbers: each device
creation allocates a fresh serial, so serial equality is `Arc` identity. -/
structure ShaderData where
  pipelines : List Nat
  processedShaders : List (List ShaderDefVal × Nat)
  resolvedImports : List (ShaderImport × Nat)
  dependents : List Nat
deriving DecidableEq

/-- Embedding of `ShaderData::default()`. -/
def ShaderData.empty : ShaderData :=
  { pipelines := [], processedShaders := [], resolvedImports := [], dependents := [] }

/-- Embedding of `ShaderCache` (lines 135-143; the `shader_format_wesl`
feature is off, so `asset_paths` is absent). `composer` is the set of module
names registered in the external composer; `nextModuleId` is the allocation
counter witnessing `Arc` identity of created shader modules. -/
structure ShaderCache where
  data : List (Nat × ShaderData)
  shaders : List (Nat × Shader)
  importPathShaders : List (ShaderImport × Nat)
  waitingOnImport : List (ShaderImport × List Nat)
  composer : List ShaderImport
  nextModuleId : Nat
deriving DecidableEq

mutual

/-- Embedding of `ShaderCache::add_import_to_composer` (lines 203-229).
The recursion is fuel-indexed because the source recursion is unbounded on
cyclic import graphs; the fuel strictly decreases on every recursive step
(so the definition is structural and computes), and `none` means it ran out.
The result pairs the outcome with the (partially) mutated composer. -/
def addImportToComposer : Nat → List (ShaderImport × Nat) → List (Nat × Shader) →
    ShaderImport → List ShaderImport →
    Option (Except PipelineCacheError Unit × List ShaderImport)
  | 0, _, _, _, _ => none
  | fuel + 1, importPathShaders, shaders, imp, composer =>
    if imp ∈ composer then some (.ok (), composer)
    else
      match (alookup importPathShaders imp).bind (fun h => alookup shaders h) with
      | none => some (.error .shaderImportNotYetAvailable, composer)
      | some shader =>
        match addImportList fuel importPathShaders shaders shader.imports composer with
        | none => none
        | some (.error e, c) => some (.error e, c)
        | some (.ok _, c) => some (.ok (), insertS shader.importPath c)

/-- Embedding of the `for import in &shader.imports { ... }` recursion inside
`add_import_to_composer`, with the same strictly-decreasing fuel. -/
def addImportList : Nat → List (ShaderImport × Nat) → List (Nat × Shader) →
    List ShaderImport → List ShaderImport →
    Option (Except PipelineCacheError Unit × List ShaderImport)
  | _, _, _, [], composer => some (.ok (), composer)
  | 0, _, _, _ :: _, _ => none
  | fuel + 1, importPathShaders, shaders, imp :: rest, composer =>
    match addImportToComposer fuel importPathShaders shaders imp composer with
    | none => none
    | some (.error e, c) => some (.error e, c)
    | some (.ok _, c) => addImportList fuel importPathShaders shaders rest c

end

/-- Modelled from the spec: the external shader compiler
(`Composer::make_naga_module`, a collaborator outside `src/`) "produces an
intermediate compiled module or a structured diagnostic"; its verdict on a
shader's source is embedded as the shader's `composeError` oracle field.
The supplied merged definition list is accepted but does not influence the
oracle verdict. -/
def makeNagaModule (shader : Shader) (_mergedDefs : List ShaderDefVal) :
    Except PipelineCacheError Unit :=
  match shader.composeError with
  | some msg => .error (.processShaderError msg)
  | none => .ok ()

/-- Modelled from the spec: the device validation-error scope
(`push_error_scope` / `pop_error_scope` around `create_shader_module`,
a collaborator outside `src/`) is embedded as the shader's `moduleError`
oracle field: `some desc` is an immediately available validation error. -/
def deviceShaderModuleError (shader : Shader) : Option String :=
  shader.moduleError

/-- The shader-data record `ShaderCache::get` and `set_shader` operate on:
`self.data.entry(id).or_default()` read back from the map. -/
def dataOf (s : ShaderCache) (id : Nat) : ShaderData :=
  (alookup s.data id).getD ShaderData.empty

/-- Embedding of `imports().filter(|i| matches!(i, AssetPath(_))).count()`. -/
def countAssetImports (l : List ShaderImport) : Nat :=
  (l.filter ShaderImport.isAssetPath).length

/-- Embedding of `data.pipelines.insert(pipeline)`. -/
def recordPipeline (pipeline : Nat) (d : ShaderData) : ShaderData :=
  { d with pipelines := insertS pipeline d.pipelines }

/-- The environment-derived definition pushed before compilation:
`AVAILABLE_STORAGE_BUFFER_BINDINGS` from
`render_device.limits().max_storage_buffers_per_shader_stage`. -/
def envDef (maxStorageBufferBindings : Nat) : ShaderDefVal :=
  .uint "AVAILABLE_STORAGE_BUFFER_BINDINGS" maxStorageBufferBindings

/-- Embedding of `ShaderCache::get` (lines 235-431), with the `shader_format_spirv`,
`shader_format_wesl`, `webgl` and `decoupled_naga` features off and
`target_abi != "sim"`, so the `Source` match takes its default (naga) branch.
`maxStorageBufferBindings` embeds
`render_device.limits().max_storage_buffers_per_shader_stage`; the pushed
environment definition extends only the compiler input, the cache key stays
`shaderDefs`. The result is the module serial together with the mutated
cache; `none` means the import-resolution recursion exhausted its fuel (the
source diverges). -/
def ShaderCache.get (fuel : Nat) (maxStorageBufferBindings : Nat) (pipeline : Nat)
    (id : Nat) (shaderDefs : List ShaderDefVal) (s : ShaderCache) :
    Option (Except PipelineCacheError Nat × ShaderCache) :=
  match alookup s.shaders id with
  | none => some (.error (.shaderNotLoaded id), s)
  | some shader =>
    -- `self.data.entry(id).or_default()`, then the asset-import count guard
    if countAssetImports shader.imports ≠
        countAssetImports ((dataOf s id).resolvedImports.map Prod.fst) then
      some (.error .shaderImportNotYetAvailable,
        { s with data := ainsert s.data id (dataOf s id) })
    else
      -- `data.pipelines.insert(pipeline)`, then the memo lookup keyed by the
      -- ordered definition list
      match alookup (dataOf s id).processedShaders shaderDefs with
      | some module =>
        -- `EntryRef::Occupied`: the cached `Arc` is cloned, nothing is created
        some (.ok module,
          { s with data := ainsert s.data id (recordPipeline pipeline (dataOf s id)) })
      | none =>
        -- `EntryRef::Vacant`: resolve imports into the composer, compile, and
        -- create the device module
        match addImportList fuel s.importPathShaders s.shaders shader.imports
            s.composer with
        | none => none
        | some (.error e, c) =>
          some (.error e,
            { s with data := ainsert s.data id (recordPipeline pipeline (dataOf s id)),
                     composer := c })
        | some (.ok _, c) =>
          match makeNagaModule shader
              ((shaderDefs ++ [envDef maxStorageBufferBindings]) ++ shader.shaderDefs) with
          | .error e =>
            some (.error e,
              { s with data := ainsert s.data id (recordPipeline pipeline (dataOf s id)),
                       composer := c })
          | .ok _ =>
            match deviceShaderModuleError shader with
            | some desc =>
              some (.error (.createShaderModule desc),
                { s with data := ainsert s.data id (recordPipeline pipeline (dataOf s id)),
                         composer := c })
            | none =>
              some (.ok s.nextModuleId,
                { s with
                  data := ainsert s.data id
                    { recordPipeline pipeline (dataOf s id) with
                      processedShaders :=
                        ainsert (dataOf s id).processedShaders shaderDefs
                          s.nextModuleId }
                  composer := c
                  nextModuleId := s.nextModuleId + 1 })

/-- Embedding of the `composer.remove_composable_module(&import_path.module_name())`
step of the invalidation walk (lines 442-445): if the visited shader has a
source record, its module is dropped from the external composer. -/
def removeComposerModule (handle : Nat) (s : ShaderCache) : ShaderCache :=
  match alookup s.shaders handle with
  | some shader => { s with composer := s.composer.filter (fun m => m ≠ shader.importPath) }
  | none => s

/-- Embedding of the `while let Some(handle) = shaders_to_clear.pop()` loop of
`ShaderCache::clear` (lines 433-450). The `Vec` stack is embedded with its top
at the head and the unspecified `HashSet` iteration order of `dependents` is
fixed as the list order. The loop has no visited set, so it is fuel-indexed;
`none` means the fuel ran out (the source loops forever). -/
def clearGo (fuel : Nat) (s : ShaderCache) (shadersToClear : List Nat)
    (pipelinesToQueue : List Nat) : Option (List Nat × ShaderCache) :=
  match fuel, shadersToClear with
  | _, [] => some (pipelinesToQueue, s)
  | 0, _ :: _ => none
  | fuel + 1, handle :: rest =>
    match alookup s.data handle with
    | none => clearGo fuel s rest pipelinesToQueue
    | some data =>
      -- `data.processed_shaders.clear()`
      let s' := { s with data := ainsert s.data handle { data with processedShaders := [] } }
      -- `pipelines_to_queue.extend(...)`, `shaders_to_clear.extend(...)`
      let acc' := pipelinesToQueue ++ data.pipelines
      let stack' := data.dependents ++ rest
      clearGo fuel (removeComposerModule handle s') stack' acc'

/-- Embedding of `ShaderCache::clear` (lines 433-450). -/
def ShaderCache.clear (fuel : Nat) (id : Nat) (s : ShaderCache) :
    Option (List Nat × ShaderCache) :=
  clearGo fuel s [id] []

/-- Embedding of the body of the `waiting_shaders.drain(..)` loop inside
`ShaderCache::set_shader` (lines 456-465): resolve the waiting shader's
pending import to this shader and record it as a dependent. -/
def resolveWaitingShader (path : ShaderImport) (id : Nat) (s : ShaderCache)
    (waitingShader : Nat) : ShaderCache :=
  let dataW := (alookup s.data waitingShader).getD ShaderData.empty
  let dataW := { dataW with resolvedImports := ainsert dataW.resolvedImports path id }
  let s := { s with data := ainsert s.data waitingShader dataW }
  let dataId := (alookup s.data id).getD ShaderData.empty
  let dataId := { dataId with dependents := insertS waitingShader dataId.dependents }
  { s with data := ainsert s.data id dataId }

/-- Embedding of the body of the `for import in shader.imports()` loop inside
`ShaderCache::set_shader` (lines 467-479). -/
def wireImport (id : Nat) (s : ShaderCache) (imp : ShaderImport) : ShaderCache :=
  match alookup s.importPathShaders imp with
  | some importId =>
    let dataId := (alookup s.data id).getD ShaderData.empty
    let dataId := { dataId with resolvedImports := ainsert dataId.resolvedImports imp importId }
    let s := { s with data := ainsert s.data id dataId }
    let dataImp := (alookup s.data importId).getD ShaderData.empty
    let dataImp := { dataImp with dependents := insertS id dataImp.dependents }
    { s with data := ainsert s.data importId dataImp }
  | none =>
    let waiting := (alookup s.waitingOnImport imp).getD []
    { s with waitingOnImport := ainsert s.waitingOnImport imp (waiting ++ [id]) }

/-- Embedding of `ShaderCache::set_shader` (lines 452-490; the
`shader_format_wesl` feature is off). `none` propagates fuel exhaustion of the
invalidation walk. -/
def ShaderCache.setShader (fuel : Nat) (id : Nat) (shader : Shader) (s : ShaderCache) :
    Option (List Nat × ShaderCache) :=
  match ShaderCache.clear fuel id s with
  | none => none
  | some (pipelinesToQueue, s) =>
    let path := shader.importPath
    let s := { s with importPathShaders := ainsert s.importPathShaders path id }
    let s :=
      match alookup s.waitingOnImport path with
      | none => s
      | some waitingShaders =>
        let s := waitingShaders.foldl (resolveWaitingShader path id) s
        -- `drain(..)` leaves the entry present but empty
        { s with waitingOnImport := ainsert s.waitingOnImport path [] }
    let s := shader.imports.foldl (wireImport id) s
    some (pipelinesToQueue, { s with shaders := ainsert s.shaders id shader })

/-- Embedding of `ShaderCache::remove` (lines 492-499). -/
def ShaderCache.remove (fuel : Nat) (id : Nat) (s : ShaderCache) :
    Option (List Nat × ShaderCache) :=
  match ShaderCache.clear fuel id s with
  | none => none
  | some (pipelinesToQueue, s) =>
    match alookup s.shaders id with
    | some shader =>
      some (pipelinesToQueue,
        { s with shaders := aremove s.shaders id,
                 importPathShaders := aremove s.importPathShaders shader.importPath })
    | none => some (pipelinesToQueue, s)

/-- Modelled from the spec: `RenderPipelineDescriptor` is defined outside
`src/`. The embedded fields are those `pipeline_cache.rs` reads when creating
the pipeline: the layout key inputs (bind-group layouts embedded by their
`BindGroupLayout::id`, push-constant ranges embedded abstractly as `Nat`) and
the shader references with their definition lists. -/
structure RenderPipelineDescriptor where
  layout : List Nat
  pushConstantRanges : List Nat
  vertexShader : Nat
  vertexShaderDefs : List ShaderDefVal
  fragment : Option (Nat × List ShaderDefVal)
deriving DecidableEq

/-- Modelled from the spec: `ComputePipelineDescriptor` is defined outside
`src/`; embedded fields as for `RenderPipelineDescriptor`. -/
structure ComputePipelineDescriptor where
  layout : List Nat
  pushConstantRanges : List Nat
  shader : Nat
  shaderDefs : List ShaderDefVal
deriving DecidableEq

/-- Embedding of `PipelineDescriptor` (lines 33-36). -/
inductive PipelineDescriptor
  | renderPipelineDescriptor (descriptor : RenderPipelineDescriptor)
  | computePipelineDescriptor (descriptor : ComputePipelineDescriptor)
deriving DecidableEq

/-- Embedding of `Pipeline` (lines 42-45): the created GPU objects are
embedded as device-allocation serial numbers. -/
inductive Pipeline
  | render (obj : Nat)
  | compute (obj : Nat)
deriving DecidableEq

instance {ε : Type u} {α : Type v} [DecidableEq ε] [DecidableEq α] :
    DecidableEq (Except ε α) := fun x y =>
  match x, y with
  | .error a, .error b =>
    if h : a = b then .isTrue (congrArg Except.error h)
    else .isFalse (fun hc => h (Except.error.inj hc))
  | .ok a, .ok b =>
    if h : a = b then .isTrue (congrArg Except.ok h)
    else .isFalse (fun hc => h (Except.ok.inj hc))
  | .error _, .ok _ => .isFalse (fun hc => Except.noConfusion hc)
  | .ok _, .error _ => .isFalse (fun hc => Except.noConfusion hc)

/-- Poll view of a `Task<Result<Pipeline, PipelineCacheError>>`: what
`bevy_tasks::futures::check_ready` observes. A spawned background task is
embedded by the outcome it has (or has not yet) produced. -/
inductive PipelineTask
  | pending
  | done (result : Except PipelineCacheError Pipeline)
deriving DecidableEq

/-- Embedding of `CachedPipelineState` (lines 91-100). -/
inductive CachedPipelineState
  | queued
  | creating (task : PipelineTask)
  | ok (pipeline : Pipeline)
  | err (error : PipelineCacheError)
deriving DecidableEq

/-- Embedding of `CachedPipeline` (lines 77-80). -/
structure CachedPipeline where
  descriptor : PipelineDescriptor
  state : CachedPipelineState
deriving DecidableEq

/-- Embedding of `CachedRenderPipelineId` (line 51). -/
structure CachedRenderPipelineId where
  id : Nat
deriving DecidableEq

/-- Embedding of `CachedComputePipelineId` (line 65). -/
structure CachedComputePipelineId where
  id : Nat
deriving DecidableEq

/-- Embedding of `LayoutCache` (lines 537-540): the memo table keyed by
`(Vec<BindGroupLayoutId>, Vec<PushConstantRange>)`, plus the device-allocation
counter witnessing `Arc<WgpuWrapper<PipelineLayout>>` identity. -/
structure LayoutCache where
  layouts : List ((List Nat × List Nat) × Nat)
  nextLayoutId : Nat
deriving DecidableEq

/-- Embedding of `LayoutCache::get` (lines 543-566): `entry(..).or_insert_with_key`
returns the cached layout on a hit and asks the device to create a fresh one
only on a miss. -/
def LayoutCache.get (lc : LayoutCache) (bindGroupLayouts : List Nat)
    (pushConstantRanges : List Nat) : Nat × LayoutCache :=
  let key := (bindGroupLayouts, pushConstantRanges)
  match alookup lc.layouts key with
  | some layout => (layout, lc)
  | none =>
    let layout := lc.nextLayoutId
    (layout, { layouts := ainsert lc.layouts key layout, nextLayoutId := layout + 1 })

/-- Embedding of `PipelineCache` (lines 582-592). `maxStorageBufferBindings`
embeds the device limit read inside `ShaderCache::get`; `nextPipelineObj` is
the device-allocation serial for created pipeline objects; `sync` is
`synchronous_pipeline_compilation`. -/
structure PipelineCache where
  layoutCache : LayoutCache
  shaderCache : ShaderCache
  maxStorageBufferBindings : Nat
  nextPipelineObj : Nat
  pipelines : List CachedPipeline
  waitingPipelines : List Nat
  newPipelines : List CachedPipeline
  sync : Bool
deriving DecidableEq

/-- Embedding of `PipelineCache::get_render_pipeline_state` (lines 626-631). -/
def PipelineCache.getRenderPipelineState (s : PipelineCache)
    (id : CachedRenderPipelineId) : CachedPipelineState :=
  match s.pipelines[id.id]? with
  | none => .queued
  | some pipeline => pipeline.state

/-- Embedding of `PipelineCache::get_compute_pipeline_state` (lines 637-642). -/
def PipelineCache.getComputePipelineState (s : PipelineCache)
    (id : CachedComputePipelineId) : CachedPipelineState :=
  match s.pipelines[id.id]? with
  | none => .queued
  | some pipeline => pipeline.state

/-- Embedding of `PipelineCache::get_render_pipeline` (lines 686-694). -/
def PipelineCache.getRenderPipeline (s : PipelineCache)
    (id : CachedRenderPipelineId) : Option Nat :=
  match s.pipelines[id.id]? with
  | none => none
  | some entry =>
    match entry.state with
    | .ok (.render pipeline) => some pipeline
    | _ => none

/-- Embedding of `PipelineCache::get_compute_pipeline` (lines 720-728). -/
def PipelineCache.getComputePipeline (s : PipelineCache)
    (id : CachedComputePipelineId) : Option Nat :=
  match s.pipelines[id.id]? with
  | none => none
  | some entry =>
    match entry.state with
    | .ok (.compute pipeline) => some pipeline
    | _ => none

/-- Embedding of `PipelineCache::queue_render_pipeline` (lines 743-757). -/
def PipelineCache.queueRenderPipeline (s : PipelineCache)
    (descriptor : RenderPipelineDescriptor) : CachedRenderPipelineId × PipelineCache :=
  let id := s.pipelines.length + s.newPipelines.length
  (⟨id⟩, { s with newPipelines := s.newPipelines ++
    [{ descriptor := .renderPipelineDescriptor descriptor, state := .queued }] })

/-- Embedding of `PipelineCache::queue_compute_pipeline` (lines 772-786). -/
def PipelineCache.queueComputePipeline (s : PipelineCache)
    (descriptor : ComputePipelineDescriptor) : CachedComputePipelineId × PipelineCache :=
  let id := s.pipelines.length + s.newPipelines.length
  (⟨id⟩, { s with newPipelines := s.newPipelines ++
    [{ descriptor := .computePipelineDescriptor descriptor, state := .queued }] })

/-- Shared tail of the inline creation futures (lines 845-914 / 941-973):
resolve the layout through the `LayoutCache` unless both the layout list and
the push-constant ranges are empty, then ask the device to create the pipeline
object (embedded as a fresh serial). -/
def PipelineCache.finishCreate (s : PipelineCache) (layout : List Nat)
    (pushConstantRanges : List Nat) (mk : Nat → Pipeline) :
    CachedPipelineState × PipelineCache :=
  let s :=
    if layout.isEmpty && pushConstantRanges.isEmpty then s
    else
      let r := LayoutCache.get s.layoutCache layout pushConstantRanges
      { s with layoutCache := r.2 }
  let obj := s.nextPipelineObj
  (.ok (mk obj), { s with nextPipelineObj := obj + 1 })

/-- Embedding of `PipelineCache::start_create_render_pipeline` (lines 806-915)
composed with `create_pipeline_task` (lines 1090-1117). With `sync = true`
(or on platforms without a worker pool) the future is run to completion
inline; otherwise the spawned task is embedded as a not-yet-completed poll
view (`Creating(pending)` — the model does not advance background tasks).
`none` propagates fuel exhaustion of the import-resolution recursion. -/
def PipelineCache.startCreateRenderPipeline (s : PipelineCache) (id : Nat)
    (descriptor : RenderPipelineDescriptor) (fuel : Nat) :
    Option (CachedPipelineState × PipelineCache) :=
  if s.sync then
    match ShaderCache.get fuel s.maxStorageBufferBindings id descriptor.vertexShader
        descriptor.vertexShaderDefs s.shaderCache with
    | none => none
    | some (.error e, sc) => some (.err e, { s with shaderCache := sc })
    | some (.ok _vertexModule, sc) =>
      match descriptor.fragment with
      | some fragment =>
        match ShaderCache.get fuel s.maxStorageBufferBindings id fragment.1
            fragment.2 sc with
        | none => none
        | some (.error e, sc2) => some (.err e, { s with shaderCache := sc2 })
        | some (.ok _fragmentModule, sc2) =>
          some (PipelineCache.finishCreate { s with shaderCache := sc2 }
            descriptor.layout descriptor.pushConstantRanges Pipeline.render)
      | none =>
        some (PipelineCache.finishCreate { s with shaderCache := sc }
          descriptor.layout descriptor.pushConstantRanges Pipeline.render)
  else
    some (.creating .pending, s)

/-- Embedding of `PipelineCache::start_create_compute_pipeline`
(lines 917-974) composed with `create_pipeline_task`, as for the render
variant. -/
def PipelineCache.startCreateComputePipeline (s : PipelineCache) (id : Nat)
    (descriptor : ComputePipelineDescriptor) (fuel : Nat) :
    Option (CachedPipelineState × PipelineCache) :=
  if s.sync then
    match ShaderCache.get fuel s.maxStorageBufferBindings id descriptor.shader
        descriptor.shaderDefs s.shaderCache with
    | none => none
    | some (.error e, sc) => some (.err e, { s with shaderCache := sc })
    | some (.ok _computeModule, sc) =>
      some (PipelineCache.finishCreate { s with shaderCache := sc }
        descriptor.layout descriptor.pushConstantRanges Pipeline.compute)
  else
    some (.creating .pending, s)

/-- Embedding of `PipelineCache::process_pipeline` (lines 1005-1052).
`pipelines[id]` is indexed unconditionally in the source (every id in
`waiting_pipelines` is merged in reachable states); an out-of-range id is
embedded as a no-op. -/
def PipelineCache.processPipeline (fuel : Nat) (s : PipelineCache) (id : Nat) :
    Option PipelineCache :=
  match s.pipelines[id]? with
  | none => some s
  | some entry =>
    match entry.state with
    | .queued =>
      match
        (match entry.descriptor with
          | .renderPipelineDescriptor d => s.startCreateRenderPipeline id d fuel
          | .computePipelineDescriptor d => s.startCreateComputePipeline id d fuel) with
      | none => none
      | some (newState, s') =>
        some { s' with pipelines := s'.pipelines.set id { entry with state := newState },
                       waitingPipelines := insertS id s'.waitingPipelines }
    | .creating task =>
      match task with
      | .done (.ok pipeline) =>
        -- `return`: not re-added to the waiting set
        some { s with pipelines := s.pipelines.set id { entry with state := .ok pipeline } }
      | .done (.error e) =>
        some { s with pipelines := s.pipelines.set id { entry with state := .err e },
                      waitingPipelines := insertS id s.waitingPipelines }
      | .pending => some { s with waitingPipelines := insertS id s.waitingPipelines }
    | .err e =>
      if e.retryable then
        some { s with pipelines := s.pipelines.set id { entry with state := .queued },
                      waitingPipelines := insertS id s.waitingPipelines }
      else
        -- fatal: log and `return`; no state change, not re-added
        some s
    | .ok _ => some s

/-- Embedding of `PipelineCache::process_queue` (lines 982-1003): take the
waiting set and the main table, merge the pending queue (each drained entry
gets the next dense index and joins the waiting set), then run
`process_pipeline` once per waiting id. The unspecified `HashSet` iteration
order is fixed as the list order of the embedding. -/
def PipelineCache.processQueue (fuel : Nat) (s : PipelineCache) : Option PipelineCache :=
  let merged := s.newPipelines.foldl
    (fun (pw : List CachedPipeline × List Nat) newPipeline =>
      (pw.1 ++ [newPipeline], insertS pw.1.length pw.2))
    (s.pipelines, s.waitingPipelines)
  let s' := { s with pipelines := merged.1, waitingPipelines := [], newPipelines := [] }
  merged.2.foldlM (fun st i => PipelineCache.processPipeline fuel st i) s'

/-- Iterated advance passes (`process_queue` called `n` times). -/
def PipelineCache.processQueueN (fuel : Nat) : Nat → PipelineCache → Option PipelineCache
  | 0, s => some s
  | n + 1, s =>
    match PipelineCache.processQueue fuel s with
    | none => none
    | some s' => PipelineCache.processQueueN fuel n s'

/-- Embedding of the requeue loop shared by `PipelineCache::set_shader` and
`PipelineCache::remove_shader` (lines 791-794 / 800-803): force the entry back
to `Queued` and re-add it to the waiting set. -/
def PipelineCache.requeuePipeline (s : PipelineCache) (cachedPipeline : Nat) :
    PipelineCache :=
  match s.pipelines[cachedPipeline]? with
  | none => s
  | some entry =>
    { s with pipelines := s.pipelines.set cachedPipeline { entry with state := .queued },
             waitingPipelines := insertS cachedPipeline s.waitingPipelines }

/-- Embedding of `PipelineCache::set_shader` (lines 788-795). -/
def PipelineCache.setShader (fuel : Nat) (id : Nat) (shader : Shader)
    (s : PipelineCache) : Option PipelineCache :=
  match ShaderCache.setShader fuel id shader s.shaderCache with
  | none => none
  | some (pipelinesToQueue, sc) =>
    some (pipelinesToQueue.foldl PipelineCache.requeuePipeline { s with shaderCache := sc })

/-- Embedding of `PipelineCache::remove_shader` (lines 797-804). -/
def PipelineCache.removeShader (fuel : Nat) (id : Nat) (s : PipelineCache) :
    Option PipelineCache :=
  match ShaderCache.remove fuel id s.shaderCache with
  | none => none
  | some (pipelinesToQueue, sc) =>
    some (pipelinesToQueue.foldl PipelineCache.requeuePipeline { s with shaderCache := sc })

/-- Embedding of `ShaderCache::new` (lines 175-197): all maps empty, no module
registered in the composer, no module created yet. -/
def ShaderCache.new : ShaderCache :=
  { data := [], shaders := [], importPathShaders := [], waitingOnImport := [],
    composer := [], nextModuleId := 0 }

/-- Embedding of `PipelineCache::new` (lines 606-620). -/
def PipelineCache.new (maxStorageBufferBindings : Nat) (sync : Bool) : PipelineCache :=
  { layoutCache := ⟨[], 0⟩, shaderCache := ShaderCache.new,
    maxStorageBufferBindings := maxStorageBufferBindings, nextPipelineObj := 0,
    pipelines := [], waitingPipelines := [], newPipelines := [], sync := sync }

/-- Total number of entries ever submitted: main-table length plus
pending-queue length. Handle values are issued from this sum
(lines 751 and 780). -/
def PipelineCache.totalEntries (s : PipelineCache) : Nat :=
  s.pipelines.length + s.newPipelines.length

/-- One public operation on the cache, for stating trace properties.
An advance/invalidate whose fuel is exhausted (where the source diverges) is
embedded as a skipped operation: a diverging call issues no further handles. -/
inductive CacheOp
  | queueRender (descriptor : RenderPipelineDescriptor)
  | queueCompute (descriptor : ComputePipelineDescriptor)
  | advance (fuel : Nat)
  | installShader (fuel : Nat) (id : Nat) (shader : Shader)
  | dropShader (fuel : Nat) (id : Nat)

/-- Apply one public operation. -/
def CacheOp.apply (s : PipelineCache) : CacheOp → PipelineCache
  | .queueRender d => (s.queueRenderPipeline d).2
  | .queueCompute d => (s.queueComputePipeline d).2
  | .advance fuel => (PipelineCache.processQueue fuel s).getD s
  | .installShader fuel id shader => (PipelineCache.setShader fuel id shader s).getD s
  | .dropShader fuel id => (PipelineCache.removeShader fuel id s).getD s

/-- Run a sequence of public operations. -/
def runOps (s : PipelineCache) (ops : List CacheOp) : PipelineCache :=
  ops.foldl CacheOp.apply s

/-- Shader installed under id 1 whose source imports asset path `b`. -/
def shaderA : Shader :=
  { importPath := .assetPath "a", imports := [.assetPath "b"], shaderDefs := [],
    validateShader := true, composeError := none, moduleError := none }

/-- Shader installed under id 2 whose source imports asset path `a`. -/
def shaderB : Shader :=
  { importPath := .assetPath "b", imports := [.assetPath "a"], shaderDefs := [],
    validateShader := true, composeError := none, moduleError := none }

/-- The shader cache reached from a fresh cache by installing `shaderA` under
id 1 and `shaderB` under id 2: the two sources import each other, so
`set_shader` wires `dependents` of 1 to `{2}` and `dependents` of 2 to `{1}`
(a dependency cycle built entirely through the public API). -/
def scCyclic : ShaderCache :=
  match ShaderCache.setShader 9 1 shaderA ShaderCache.new with
  | some r1 =>
    (match ShaderCache.setShader 9 2 shaderB r1.2 with
     | some r2 => r2.2
     | none => ShaderCache.new)
  | none => ShaderCache.new

/-- A render descriptor referring to shader id 7, with no fragment stage, no
bind-group layouts and no push-constant ranges. -/
def renderDescriptor7 : RenderPipelineDescriptor :=
  { layout := [], pushConstantRanges := [], vertexShader := 7,
    vertexShaderDefs := [], fragment := none }

/-- A cache holding one entry in a fatal `Err` state (external-compiler
rejection), not in the waiting set — exactly how `process_pipeline` leaves a
fatally failed entry. -/
def pcFatal : PipelineCache :=
  { PipelineCache.new 4 true with
    pipelines := [{ descriptor := .renderPipelineDescriptor renderDescriptor7,
                    state := .err (.processShaderError "rejected") }] }

/-- The fatal-entry cache after two further advance passes. -/
def pcFatalAfter : PipelineCache :=
  (PipelineCache.processQueueN 1 2 pcFatal).getD pcFatal

/-- A cache holding one entry in a retryable `Err` state, in the waiting set —
exactly how `process_pipeline` leaves a retryably failed entry. -/
def pcRetry : PipelineCache :=
  { PipelineCache.new 4 true with
    pipelines := [{ descriptor := .renderPipelineDescriptor renderDescriptor7,
                    state := .err .shaderImportNotYetAvailable }],
    waitingPipelines := [0] }

/-- The retryable-entry cache after one further advance pass. -/
def pcRetryAfter : PipelineCache :=
  (PipelineCache.processQueue 1 pcRetry).getD pcRetry

/-- The cache reached from a fresh synchronous cache by submitting one render
pipeline whose vertex shader (id 7) has no installed source and running one
advance pass. -/
def pcC3 : PipelineCache :=
  (PipelineCache.processQueue 1
    ((PipelineCache.new 4 true).queueRenderPipeline renderDescriptor7).2).getD
    (PipelineCache.new 4 true)

/-- A shader whose source declares one asset-path import. -/
def shaderNeedsImport : Shader :=
  { importPath := .custom "m", imports := [.assetPath "x"], shaderDefs := [],
    validateShader := true, composeError := none, moduleError := none }

/-- A shader cache with `shaderNeedsImport` installed under id 1 but its
asset-path import not resolved. -/
def scC5 : ShaderCache :=
  { ShaderCache.new with shaders := [(1, shaderNeedsImport)] }

/-- A shader with no imports that compiles and validates cleanly. -/
def shaderPlain : Shader :=
  { importPath := .custom "p", imports := [], shaderDefs := [],
    validateShader := true, composeError := none, moduleError := none }

/-- A shader cache with `shaderPlain` installed under id 1 and nothing
compiled yet. -/
def scC6 : ShaderCache :=
  { ShaderCache.new with shaders := [(1, shaderPlain)] }

/-- An ordered definition list. -/
def defsXY : List ShaderDefVal := [.bool "X" true, .bool "Y" true]

/-- The same definitions as `defsXY` in a different order. -/
def defsYX : List ShaderDefVal := [.bool "Y" true, .bool "X" true]

/-- First lookup against `scC6`: shader 1 under `defsXY` for pipeline 10. -/
def c6r1 : Except PipelineCacheError Nat × ShaderCache :=
  (ShaderCache.get 3 4 10 1 defsXY scC6).getD (.error .shaderImportNotYetAvailable, scC6)

/-- Module serial returned by the first lookup. -/
def c6m1 : Nat := match c6r1.1 with | .ok m => m | .error _ => 0

/-- Second lookup (same ordered definitions, pipeline 11). -/
def c6r2 : Except PipelineCacheError Nat × ShaderCache :=
  (ShaderCache.get 3 4 11 1 defsXY c6r1.2).getD (.error .shaderImportNotYetAvailable, c6r1.2)

/-- Module serial returned by the second lookup. -/
def c6m2 : Nat := match c6r2.1 with | .ok m => m | .error _ => 0

/-- Third lookup (same definitions in a different order, pipeline 12). -/
def c6r3 : Except PipelineCacheError Nat × ShaderCache :=
  (ShaderCache.get 3 4 12 1 defsYX c6r2.2).getD (.error .shaderImportNotYetAvailable, c6r2.2)

/-- Module serial returned by the third lookup. -/
def c6m3 : Nat := match c6r3.1 with | .ok m => m | .error _ => 0

/-- A shader cache where shader id 1 is installed and pipeline 0 is recorded
against it. -/
def scC8 : ShaderCache :=
  { ShaderCache.new with
    shaders := [(1, shaderNeedsImport)],
    data := [(1, { ShaderData.empty with pipelines := [0] })] }

/-- A pipeline cache whose entry 0 is `Ready` and whose shader cache is
`scC8`. -/
def pcC8 : PipelineCache :=
  { PipelineCache.new 4 true with
    shaderCache := scC8,
    pipelines := [{ descriptor := .renderPipelineDescriptor renderDescriptor7,
                    state := .ok (.render 0) }] }

/-- Result of installing `shaderPlain` over id 1 in `scC8`. -/
def c8set : List Nat × ShaderCache :=
  (ShaderCache.setShader 9 1 shaderPlain scC8).getD ([], scC8)

/-- Result of removing shader id 1 from `scC8`. -/
def c8rem : List Nat × ShaderCache :=
  (ShaderCache.remove 9 1 scC8).getD ([], scC8)

/-- A two-cycle in the dependents relation: each of the two shader identities
has a data record whose dependents set is exactly the other identity. -/
def CycleInv (idA idB : Nat) (s : ShaderCache) : Prop :=
  (∃ d, alookup s.data idA = some d ∧ d.dependents = [idB]) ∧
  (∃ d, alookup s.data idB = some d ∧ d.dependents = [idA])

/-! Association-list and set lemmas. -/

theorem alookup_aremove [DecidableEq K] (l : List (K × V)) (k k' : K) :
    alookup (aremove l k) k' = if k' = k then none else alookup l k' := by
  induction l with
  | nil => simp [aremove, alookup]
  | cons p t ih =>
    obtain ⟨a, b⟩ := p
    simp only [aremove]
    by_cases hak : a = k
    · rw [if_pos hak, ih]
      by_cases hk : k' = k
      · simp [hk]
      · have hka : ¬k' = a := fun h => hk (by rw [h, hak])
        simp [alookup, hk, hka]
    · rw [if_neg hak]
      simp only [alookup]
      by_cases hka : k' = a
      · subst hka
        simp [alookup, hak]
      · simp [hka, ih]

theorem alookup_ainsert_self [DecidableEq K] (l : List (K × V)) (k : K) (v : V) :
    alookup (ainsert l k v) k = some v := by
  simp [ainsert, alookup]

theorem alookup_ainsert_ne [DecidableEq K] (l : List (K × V)) (k k' : K) (v : V)
    (h : k' ≠ k) : alookup (ainsert l k v) k' = alookup l k' := by
  simp [ainsert, alookup, h, alookup_aremove]

theorem alookup_ainsert [DecidableEq K] (l : List (K × V)) (k k' : K) (v : V) :
    alookup (ainsert l k v) k' = if k' = k then some v else alookup l k' := by
  by_cases h : k' = k
  · subst h; simp [alookup_ainsert_self]
  · simp [h, alookup_ainsert_ne _ _ _ _ h]

theorem alookup_aremove_self [DecidableEq K] (l : List (K × V)) (k : K) :
    alookup (aremove l k) k = none := by
  simp [alookup_aremove]

theorem mem_insertS {α : Type u} [DecidableEq α] (a b : α) (l : List α) :
    a ∈ insertS b l ↔ a = b ∨ a ∈ l := by
  unfold insertS
  by_cases h : b ∈ l
  · simp only [if_pos h]
    constructor
    · exact fun ha => Or.inr ha
    · rintro (rfl | ha)
      · exact h
      · exact ha
  · simp [if_neg h, List.mem_cons]

theorem self_mem_insertS {α : Type u} [DecidableEq α] (a : α) (l : List α) :
    a ∈ insertS a l := by
  simp [mem_insertS]

theorem mem_of_mem_insertS {α : Type u} [DecidableEq α] {a b : α} {l : List α}
    (h : a ∈ l) : a ∈ insertS b l := by
  simp [mem_insertS, h]

theorem nodup_insertS {α : Type u} [DecidableEq α] (a : α) {l : List α}
    (h : l.Nodup) : (insertS a l).Nodup := by
  unfold insertS
  by_cases ha : a ∈ l
  · simpa [ha]
  · simpa [ha] using h

/-- C9: `get_render_pipeline_state` / `get_compute_pipeline_state` return
`Queued` for every index not yet present in the main table (still pending
merge) and the entry's actual stored state otherwise; the query is total (it
never panics, whatever the index). -/
theorem claim_C9_state_query (s : PipelineCache) (i : Nat) :
    (s.pipelines.length ≤ i →
      s.getRenderPipelineState ⟨i⟩ = .queued ∧
      s.getComputePipelineState ⟨i⟩ = .queued) ∧
    (∀ h : i < s.pipelines.length,
      s.getRenderPipelineState ⟨i⟩ = (s.pipelines.get ⟨i, h⟩).state ∧
      s.getComputePipelineState ⟨i⟩ = (s.pipelines.get ⟨i, h⟩).state) := by
  have hget : ∀ h : i < s.pipelines.length, s.pipelines.get ⟨i, h⟩ = s.pipelines[i] :=
    fun _ => rfl
  constructor
  · intro h
    have hn : s.pipelines[i]? = none := List.getElem?_eq_none h
    constructor <;>
      simp [PipelineCache.getRenderPipelineState, PipelineCache.getComputePipelineState, hn]
  · intro h
    have hg : s.pipelines[i]? = some s.pipelines[i] := List.getElem?_eq_getElem h
    constructor <;>
      simp [PipelineCache.getRenderPipelineState, PipelineCache.getComputePipelineState, hg]

/-- Witness for C9 at a concrete cache: index 0 is pending in a fresh cache
and stored in `pcRetry`. -/
theorem claim_C9_state_query_witness :
    ((PipelineCache.new 4 true).getRenderPipelineState ⟨0⟩ = .queued ∧
      (PipelineCache.new 4 true).getComputePipelineState ⟨0⟩ = .queued) ∧
    (pcRetry.getRenderPipelineState ⟨0⟩ = (pcRetry.pipelines.get ⟨0, by decide⟩).state ∧
      pcRetry.getComputePipelineState ⟨0⟩ = (pcRetry.pipelines.get ⟨0, by decide⟩).state) :=
  ⟨(claim_C9_state_query (PipelineCache.new 4 true) 0).1 (by decide),
   (claim_C9_state_query pcRetry 0).2 (by decide)⟩

/-- C10: `get_render_pipeline` returns `some` exactly when an entry exists at
the index and its state is `Ok` holding a render pipeline, and `none` in every
other case (index past the table end, entry still queued/creating/failed, or
an `Ok` state holding a compute pipeline), without panicking; symmetrically
for `get_compute_pipeline`. -/
theorem claim_C10_typed_accessors (s : PipelineCache) (i p : Nat) :
    (s.getRenderPipeline ⟨i⟩ = some p ↔
      ∃ e, s.pipelines[i]? = some e ∧ e.state = .ok (.render p)) ∧
    (s.getComputePipeline ⟨i⟩ = some p ↔
      ∃ e, s.pipelines[i]? = some e ∧ e.state = .ok (.compute p)) := by
  constructor
  · unfold PipelineCache.getRenderPipeline
    cases hj : s.pipelines[i]? with
    | none => simp
    | some e =>
      cases hs : e.state with
      | ok pl => cases pl <;> simp_all
      | queued => simp_all
      | creating t => simp_all
      | err er => simp_all
  · unfold PipelineCache.getComputePipeline
    cases hj : s.pipelines[i]? with
    | none => simp
    | some e =>
      cases hs : e.state with
      | ok pl => cases pl <;> simp_all
      | queued => simp_all
      | creating t => simp_all
      | err er => simp_all

theorem layoutCache_get_mono (l : LayoutCache) (k : List Nat × List Nat) (w : Nat)
    (bg pc : List Nat) (hk : alookup l.layouts k = some w) :
    alookup (l.get bg pc).2.layouts k = some w := by
  cases hbg : alookup l.layouts (bg, pc) with
  | some v => simpa [LayoutCache.get, hbg] using hk
  | none =>
    have hkk : k ≠ (bg, pc) := by
      intro hkk
      rw [hkk, hbg] at hk
      exact Option.noConfusion hk
    simp only [LayoutCache.get, hbg]
    rw [alookup_ainsert_ne _ _ _ _ hkk]
    exact hk

/-- C7: the pipeline layout cache is a pure memo table. A repeated request
with the identical ordered bind-group-layout identity list and identical
push-constant ranges returns the identical shared layout object with no second
device creation (the cache state is unchanged); a request whose bind-group
list is a reordering of a cached key is a miss that creates and stores a new,
distinct layout object; stored layouts are never removed by any request. -/
theorem claim_C7_layout_cache_memo (lc : LayoutCache) (bgls bgls' pcrs : List Nat)
    (hperm : bgls'.Perm bgls) (hne : bgls' ≠ bgls)
    (h1 : alookup lc.layouts (bgls, pcrs) = none)
    (h2 : alookup lc.layouts (bgls', pcrs) = none) :
    ((lc.get bgls pcrs).1 = lc.nextLayoutId ∧
      alookup (lc.get bgls pcrs).2.layouts (bgls, pcrs) = some lc.nextLayoutId) ∧
    ((lc.get bgls pcrs).2.get bgls pcrs =
      ((lc.get bgls pcrs).1, (lc.get bgls pcrs).2)) ∧
    (((lc.get bgls pcrs).2.get bgls' pcrs).1 ≠ (lc.get bgls pcrs).1 ∧
      alookup ((lc.get bgls pcrs).2.get bgls' pcrs).2.layouts (bgls', pcrs) =
        some ((lc.get bgls pcrs).2.get bgls' pcrs).1) ∧
    (∀ (k : List Nat × List Nat) (w : Nat) (bg pc : List Nat),
      alookup lc.layouts k = some w →
      alookup (lc.get bg pc).2.layouts k = some w) := by
  have hkey : ((bgls', pcrs) : List Nat × List Nat) ≠ (bgls, pcrs) := by
    intro h
    exact hne (congrArg Prod.fst h)
  have e1 : lc.get bgls pcrs =
      (lc.nextLayoutId,
        ⟨ainsert lc.layouts (bgls, pcrs) lc.nextLayoutId, lc.nextLayoutId + 1⟩) := by
    simp [LayoutCache.get, h1]
  have h2' : alookup (ainsert lc.layouts (bgls, pcrs) lc.nextLayoutId) (bgls', pcrs)
      = none := by
    rw [alookup_ainsert_ne _ _ _ _ hkey]
    exact h2
  refine ⟨⟨by rw [e1], by rw [e1]; exact alookup_ainsert_self _ _ _⟩, ?_, ⟨?_, ?_⟩, ?_⟩
  · rw [e1]
    simp [LayoutCache.get, alookup_ainsert_self]
  · rw [e1]
    simp [LayoutCache.get, h2']
  · rw [e1]
    simp [LayoutCache.get, h2', alookup_ainsert_self]
  · exact fun k w bg pc hk => layoutCache_get_mono lc k w bg pc hk

/-- Witness for C7 on an empty layout cache with key `([1, 2], [])` and its
reordering `([2, 1], [])`: the first request allocates layout 0 and the
reordered request allocates a different layout. -/
theorem claim_C7_layout_cache_memo_witness :
    ((⟨[], 0⟩ : LayoutCache).get [1, 2] []).1 = 0 ∧
    (((⟨[], 0⟩ : LayoutCache).get [1, 2] []).2.get [2, 1] []).1 ≠
      ((⟨[], 0⟩ : LayoutCache).get [1, 2] []).1 := by
  have h := claim_C7_layout_cache_memo ⟨[], 0⟩ [1, 2] [2, 1] [] (by decide) (by decide)
    rfl rfl
  exact ⟨h.1.1, h.2.2.1.1⟩

/-- C5: `ShaderCache::get` returns the retryable `ShaderNotLoaded` error when
the shader has no installed source, and the retryable
`ShaderImportNotYetAvailable` error when the number of resolved asset-path
imports differs from the number of declared asset-path imports; in the latter
case no compilation and no device shader-module creation is attempted (the
composer and the module-allocation counter are untouched; only the lazily
created `data` entry is written). -/
theorem claim_C5_deferred_compilation (fuel msb p id : Nat)
    (defs : List ShaderDefVal) (s : ShaderCache) :
    (alookup s.shaders id = none →
      ShaderCache.get fuel msb p id defs s = some (.error (.shaderNotLoaded id), s)) ∧
    (∀ shader, alookup s.shaders id = some shader →
      countAssetImports shader.imports ≠
        countAssetImports ((dataOf s id).resolvedImports.map Prod.fst) →
      ∃ s', ShaderCache.get fuel msb p id defs s =
          some (.error .shaderImportNotYetAvailable, s') ∧
        s'.nextModuleId = s.nextModuleId ∧ s'.composer = s.composer ∧
        s'.shaders = s.shaders ∧
        s'.data = ainsert s.data id (dataOf s id)) := by
  constructor
  · intro h
    simp [ShaderCache.get, h]
  · intro shader hsh hcnt
    refine ⟨{ s with data := ainsert s.data id (dataOf s id) },
      ?_, rfl, rfl, rfl, rfl⟩
    simp [ShaderCache.get, hsh, hcnt]

/-- Witness for C5: an empty cache for the missing-shader case and `scC5`
(one declared asset-path import, none resolved) for the deferral case. -/
theorem claim_C5_deferred_compilation_witness :
    (ShaderCache.get 3 4 0 3 [] ShaderCache.new
      = some (.error (.shaderNotLoaded 3), ShaderCache.new)) ∧
    ((ShaderCache.get 3 4 0 1 [] scC5).map
        (fun r => (r.1, r.2.nextModuleId, r.2.composer))
      = some (.error .shaderImportNotYetAvailable, scC5.nextModuleId, scC5.composer)) := by
  constructor
  · exact (claim_C5_deferred_compilation 3 4 0 3 [] ShaderCache.new).1 rfl
  · rcases (claim_C5_deferred_compilation 3 4 0 1 [] scC5).2 shaderNeedsImport rfl
      (by decide) with ⟨s', hg, hn, hc, _, _⟩
    rw [hg]
    simp [hn, hc]

theorem cycleInv_of_data_eq (idA idB : Nat) (s₁ s₂ : ShaderCache)
    (h : s₂.data = s₁.data) (hP : CycleInv idA idB s₁) : CycleInv idA idB s₂ := by
  unfold CycleInv at *
  rw [h]
  exact hP

theorem removeComposerModule_data (handle : Nat) (s : ShaderCache) :
    (removeComposerModule handle s).data = s.data := by
  unfold removeComposerModule
  cases alookup s.shaders handle <;> rfl

theorem cycleInv_ainsert (idA idB h : Nat) (s : ShaderCache) (d : ShaderData)
    (hh : alookup s.data h = some d) (hP : CycleInv idA idB s) :
    CycleInv idA idB
      { s with data := ainsert s.data h { d with processedShaders := [] } } := by
  obtain ⟨⟨dA, hA, hAd⟩, ⟨dB, hB, hBd⟩⟩ := hP
  constructor
  · by_cases hx : idA = h
    · subst hx
      rw [hh] at hA
      injection hA with hA
      subst hA
      exact ⟨{ d with processedShaders := [] }, alookup_ainsert_self _ _ _, hAd⟩
    · exact ⟨dA, by rw [alookup_ainsert_ne _ _ _ _ hx]; exact hA, hAd⟩
  · by_cases hx : idB = h
    · subst hx
      rw [hh] at hB
      injection hB with hB
      subst hB
      exact ⟨{ d with processedShaders := [] }, alookup_ainsert_self _ _ _, hBd⟩
    · exact ⟨dB, by rw [alookup_ainsert_ne _ _ _ _ hx]; exact hB, hBd⟩

theorem clearGo_cycle_diverges (idA idB : Nat) :
    ∀ (fuel : Nat) (s : ShaderCache) (stack acc : List Nat),
      stack ≠ [] → (∀ x ∈ stack, x = idA ∨ x = idB) →
      CycleInv idA idB s →
      clearGo fuel s stack acc = none := by
  intro fuel
  induction fuel with
  | zero =>
    intro s stack acc hne _ _
    cases stack with
    | nil => exact absurd rfl hne
    | cons x t => rfl
  | succ f ih =>
    intro s stack acc hne hmem hP
    cases stack with
    | nil => exact absurd rfl hne
    | cons x t =>
      have hx := hmem x (List.mem_cons_self x t)
      obtain ⟨⟨dA, hA, hAd⟩, ⟨dB, hB, hBd⟩⟩ := hP
      have hrec : ∃ d y, alookup s.data x = some d ∧ d.dependents = [y] ∧
          (y = idA ∨ y = idB) := by
        rcases hx with rfl | rfl
        · exact ⟨dA, idB, hA, hAd, Or.inr rfl⟩
        · exact ⟨dB, idA, hB, hBd, Or.inl rfl⟩
      obtain ⟨d, y, hd, hdep, hy⟩ := hrec
      have hP' : CycleInv idA idB
          { s with data := ainsert s.data x { d with processedShaders := [] } } :=
        cycleInv_ainsert idA idB x s d hd ⟨⟨dA, hA, hAd⟩, ⟨dB, hB, hBd⟩⟩
      simp only [clearGo, hd]
      apply ih
      · rw [hdep]
        simp
      · intro z hz
        rw [hdep] at hz
        rcases List.mem_append.mp hz with hz1 | hz2
        · rcases List.mem_singleton.mp hz1 with rfl
          exact hy
        · exact hmem z (List.mem_cons_of_mem _ hz2)
      · exact cycleInv_of_data_eq idA idB _ _ (removeComposerModule_data _ _) hP'

/-- C2: the invalidation walk of `ShaderCache::clear` has no visited set, so
on a dependents cycle — reachable through the public API by installing two
shaders whose sources import each other — the `while let` loop never
terminates (the fuel-indexed embedding returns `none` for every fuel), and
the fuel-propagating `set_shader` / `remove` diverge with it. This refutes
the claim that the walk visits each shader at most once and terminates on
every graph, including cyclic ones. -/
theorem claim_C2_clear_diverges_on_cycle (fuel : Nat) :
    ShaderCache.clear fuel 1 scCyclic = none ∧
    ShaderCache.setShader fuel 1 shaderA scCyclic = none ∧
    ShaderCache.remove fuel 1 scCyclic = none := by
  have hinv : CycleInv 1 2 scCyclic :=
    ⟨⟨_, rfl, by decide⟩, ⟨_, rfl, by decide⟩⟩
  have hdiv : ShaderCache.clear fuel 1 scCyclic = none :=
    clearGo_cycle_diverges 1 2 fuel scCyclic [1] [] (by simp)
      (by intro x hx; simp at hx; exact Or.inl hx) hinv
  refine ⟨hdiv, ?_, ?_⟩
  · simp [ShaderCache.setShader, hdiv]
  · simp [ShaderCache.remove, hdiv]

theorem removeComposerModule_shaders (handle : Nat) (s : ShaderCache) :
    (removeComposerModule handle s).shaders = s.shaders := by
  unfold removeComposerModule
  cases alookup s.shaders handle <;> rfl

theorem clearGo_shaders (fuel : Nat) :
    ∀ (s : ShaderCache) (stack acc : List Nat) (r : List Nat × ShaderCache),
      clearGo fuel s stack acc = some r → r.2.shaders = s.shaders := by
  induction fuel with
  | zero =>
    intro s stack acc r h
    cases stack with
    | nil =>
      injection h with h1
      subst h1
      rfl
    | cons x t => exact Option.noConfusion h
  | succ f ih =>
    intro s stack acc r h
    cases stack with
    | nil =>
      injection h with h1
      subst h1
      rfl
    | cons x t =>
      simp only [clearGo] at h
      cases hd : alookup s.data x with
      | none =>
        rw [hd] at h
        exact ih _ _ _ _ h
      | some d =>
        rw [hd] at h
        have hr := ih _ _ _ _ h
        rw [hr, removeComposerModule_shaders]

theorem requeuePipeline_length (s : PipelineCache) (j : Nat) :
    (s.requeuePipeline j).pipelines.length = s.pipelines.length := by
  unfold PipelineCache.requeuePipeline
  cases hj : s.pipelines[j]? with
  | none => rfl
  | some e => simp

theorem requeuePipeline_queued_at (s : PipelineCache) (h : Nat) (e : CachedPipeline)
    (he : s.pipelines[h]? = some e) :
    (s.requeuePipeline h).pipelines[h]? = some { e with state := .queued } ∧
    h ∈ (s.requeuePipeline h).waitingPipelines := by
  have hlen : h < s.pipelines.length := by
    rcases List.getElem?_eq_some.mp he with ⟨w, _⟩
    exact w
  constructor
  · simp [PipelineCache.requeuePipeline, he, List.getElem?_set_self, hlen]
  · simp [PipelineCache.requeuePipeline, he, self_mem_insertS]

theorem requeuePipeline_preserves_queued (s : PipelineCache) (j h : Nat)
    (e : CachedPipeline) (he : s.pipelines[h]? = some e) (hq : e.state = .queued) :
    ∃ e', (s.requeuePipeline j).pipelines[h]? = some e' ∧ e'.state = .queued := by
  by_cases hjh : j = h
  · subst hjh
    exact ⟨{ e with state := .queued }, (requeuePipeline_queued_at s j e he).1, rfl⟩
  · unfold PipelineCache.requeuePipeline
    cases hj : s.pipelines[j]? with
    | none => exact ⟨e, he, hq⟩
    | some e2 =>
      refine ⟨e, ?_, hq⟩
      simpa [List.getElem?_set_ne hjh] using he

theorem requeuePipeline_preserves_waiting (s : PipelineCache) (j h : Nat)
    (hw : h ∈ s.waitingPipelines) : h ∈ (s.requeuePipeline j).waitingPipelines := by
  unfold PipelineCache.requeuePipeline
  cases hj : s.pipelines[j]? with
  | none => exact hw
  | some e => exact mem_of_mem_insertS hw

theorem foldl_requeue_preserves (t : List Nat) :
    ∀ (s : PipelineCache) (h : Nat) (e : CachedPipeline),
      s.pipelines[h]? = some e → e.state = .queued → h ∈ s.waitingPipelines →
      (∃ e', (t.foldl PipelineCache.requeuePipeline s).pipelines[h]? = some e' ∧
        e'.state = .queued) ∧
      h ∈ (t.foldl PipelineCache.requeuePipeline s).waitingPipelines := by
  induction t with
  | nil => exact fun s h e he hq hw => ⟨⟨e, he, hq⟩, hw⟩
  | cons j t ih =>
    intro s h e he hq hw
    obtain ⟨e', he', hq'⟩ := requeuePipeline_preserves_queued s j h e he hq
    exact ih (s.requeuePipeline j) h e' he' hq'
      (requeuePipeline_preserves_waiting s j h hw)

theorem foldl_requeue_spec (q : List Nat) :
    ∀ (s : PipelineCache) (h : Nat), h ∈ q → h < s.pipelines.length →
      (∃ e, (q.foldl PipelineCache.requeuePipeline s).pipelines[h]? = some e ∧
        e.state = .queued) ∧
      h ∈ (q.foldl PipelineCache.requeuePipeline s).waitingPipelines := by
  induction q with
  | nil => intro s h hmem; cases hmem
  | cons j t ih =>
    intro s h hmem hlen
    by_cases hjh : h = j
    · subst hjh
      have he : s.pipelines[h]? = some s.pipelines[h] := List.getElem?_eq_getElem hlen
      obtain ⟨h1, h2⟩ := requeuePipeline_queued_at s h _ he
      exact foldl_requeue_preserves t (s.requeuePipeline h) h _ h1 rfl h2
    · have hmem' : h ∈ t := by
        rcases List.mem_cons.mp hmem with rfl | hmem'
        · exact absurd rfl hjh
        · exact hmem'
      exact ih (s.requeuePipeline j) h hmem'
        (by rw [requeuePipeline_length]; exact hlen)

/-- C8: every pipeline handle returned by the shader cache's invalidation is
forced back to `Queued` — whatever its current state, `Ready` and `Failed`
included — and re-added to the waiting set, both for `set_shader` and
`remove_shader`; `remove_shader` additionally deletes the shader's source
record and its import-path mapping, so the import path no longer resolves. -/
theorem claim_C8_invalidation_requeues (fuel id : Nat) (shader : Shader)
    (s : PipelineCache) (queue : List Nat) (sc' : ShaderCache) :
    (ShaderCache.setShader fuel id shader s.shaderCache = some (queue, sc') →
      ∃ s', PipelineCache.setShader fuel id shader s = some s' ∧
        ∀ h ∈ queue, h < s.pipelines.length →
          (∃ e, s'.pipelines[h]? = some e ∧ e.state = .queued) ∧
          h ∈ s'.waitingPipelines) ∧
    (ShaderCache.remove fuel id s.shaderCache = some (queue, sc') →
      (∃ s', PipelineCache.removeShader fuel id s = some s' ∧
        ∀ h ∈ queue, h < s.pipelines.length →
          (∃ e, s'.pipelines[h]? = some e ∧ e.state = .queued) ∧
          h ∈ s'.waitingPipelines) ∧
      ∀ shader₀, alookup s.shaderCache.shaders id = some shader₀ →
        alookup sc'.shaders id = none ∧
        alookup sc'.importPathShaders shader₀.importPath = none) := by
  constructor
  · intro hset
    refine ⟨queue.foldl PipelineCache.requeuePipeline { s with shaderCache := sc' },
      ?_, ?_⟩
    · simp [PipelineCache.setShader, hset]
    · intro h hmem hlen
      exact foldl_requeue_spec queue { s with shaderCache := sc' } h hmem hlen
  · intro hrem
    constructor
    · refine ⟨queue.foldl PipelineCache.requeuePipeline { s with shaderCache := sc' },
        ?_, ?_⟩
      · simp [PipelineCache.removeShader, hrem]
      · intro h hmem hlen
        exact foldl_requeue_spec queue { s with shaderCache := sc' } h hmem hlen
    · intro shader₀ hsh
      unfold ShaderCache.remove at hrem
      cases hclr : ShaderCache.clear fuel id s.shaderCache with
      | none => rw [hclr] at hrem; exact Option.noConfusion hrem
      | some r =>
        obtain ⟨q2, sc2⟩ := r
        rw [hclr] at hrem
        have hsh2 : alookup sc2.shaders id = some shader₀ := by
          rw [clearGo_shaders fuel s.shaderCache [id] [] (q2, sc2) hclr]
          exact hsh
        have hrem' :
            (match alookup sc2.shaders id with
              | some shader =>
                some (q2,
                  { sc2 with
                    shaders := aremove sc2.shaders id
                    importPathShaders :=
                      aremove sc2.importPathShaders shader.importPath })
              | none => some (q2, sc2)) = some (queue, sc') := hrem
        rw [hsh2] at hrem'
        injection hrem' with hrem'
        injection hrem' with hq hsc
        subst hsc
        constructor
        · exact alookup_aremove_self _ _
        · exact alookup_aremove_self _ _

/-- Witness for C8 at `pcC8`: invalidating shader 1 (install and remove)
requeues pipeline 0, which was `Ready`, and after removal neither the source
record nor the import path resolves. -/
theorem claim_C8_invalidation_requeues_witness :
    (∃ s', PipelineCache.setShader 9 1 shaderPlain pcC8 = some s' ∧
      ∀ h ∈ c8set.1, h < pcC8.pipelines.length →
        (∃ e, s'.pipelines[h]? = some e ∧ e.state = .queued) ∧
        h ∈ s'.waitingPipelines) ∧
    (alookup c8rem.2.shaders 1 = none ∧
      alookup c8rem.2.importPathShaders shaderNeedsImport.importPath = none) := by
  constructor
  · exact (claim_C8_invalidation_requeues 9 1 shaderPlain pcC8 c8set.1 c8set.2).1
      (by rfl)
  · exact ((claim_C8_invalidation_requeues 9 1 shaderPlain pcC8 c8rem.1 c8rem.2).2
      (by rfl)).2 shaderNeedsImport rfl

theorem finishCreate_fields (s : PipelineCache) (layout pcrs : List Nat)
    (mk : Nat → Pipeline) :
    (PipelineCache.finishCreate s layout pcrs mk).2.pipelines = s.pipelines ∧
    (PipelineCache.finishCreate s layout pcrs mk).2.newPipelines = s.newPipelines ∧
    (PipelineCache.finishCreate s layout pcrs mk).2.waitingPipelines =
      s.waitingPipelines := by
  cases hc : (layout.isEmpty && pcrs.isEmpty) <;>
    simp [PipelineCache.finishCreate, hc]

theorem startCreateRender_fields (s : PipelineCache) (id : Nat)
    (d : RenderPipelineDescriptor) (fuel : Nat) (r : CachedPipelineState × PipelineCache)
    (h : s.startCreateRenderPipeline id d fuel = some r) :
    r.2.pipelines = s.pipelines ∧ r.2.newPipelines = s.newPipelines ∧
    r.2.waitingPipelines = s.waitingPipelines := by
  unfold PipelineCache.startCreateRenderPipeline at h
  split at h
  · split at h
    · exact Option.noConfusion h
    · injection h with h
      subst h
      exact ⟨rfl, rfl, rfl⟩
    · split at h
      · split at h
        · exact Option.noConfusion h
        · injection h with h
          subst h
          exact ⟨rfl, rfl, rfl⟩
        · injection h with h
          subst h
          exact finishCreate_fields _ _ _ _
      · injection h with h
        subst h
        exact finishCreate_fields _ _ _ _
  · injection h with h
    subst h
    exact ⟨rfl, rfl, rfl⟩

theorem startCreateCompute_fields (s : PipelineCache) (id : Nat)
    (d : ComputePipelineDescriptor) (fuel : Nat) (r : CachedPipelineState × PipelineCache)
    (h : s.startCreateComputePipeline id d fuel = some r) :
    r.2.pipelines = s.pipelines ∧ r.2.newPipelines = s.newPipelines ∧
    r.2.waitingPipelines = s.waitingPipelines := by
  unfold PipelineCache.startCreateComputePipeline at h
  split at h
  · split at h
    · exact Option.noConfusion h
    · injection h with h
      subst h
      exact ⟨rfl, rfl, rfl⟩
    · injection h with h
      subst h
      exact finishCreate_fields _ _ _ _
  · injection h with h
    subst h
    exact ⟨rfl, rfl, rfl⟩

theorem startCreateEither_fields (st : PipelineCache) (j fuel : Nat)
    (descriptor : PipelineDescriptor) (r : CachedPipelineState × PipelineCache)
    (h : (match descriptor with
          | .renderPipelineDescriptor d => st.startCreateRenderPipeline j d fuel
          | .computePipelineDescriptor d => st.startCreateComputePipeline j d fuel)
        = some r) :
    r.2.pipelines = st.pipelines ∧ r.2.newPipelines = st.newPipelines ∧
    r.2.waitingPipelines = st.waitingPipelines := by
  cases descriptor with
  | renderPipelineDescriptor d => exact startCreateRender_fields st j d fuel r h
  | computePipelineDescriptor d => exact startCreateCompute_fields st j d fuel r h

theorem processPipeline_totals (fuel : Nat) (st : PipelineCache) (j : Nat)
    (st' : PipelineCache) (h : PipelineCache.processPipeline fuel st j = some st') :
    st'.pipelines.length = st.pipelines.length ∧
    st'.newPipelines = st.newPipelines := by
  unfold PipelineCache.processPipeline at h
  split at h
  · injection h with h
    subst h
    exact ⟨rfl, rfl⟩
  · split at h
    · split at h
      · exact Option.noConfusion h
      · rename_i newState s1 heq
        obtain ⟨hp, hn, -⟩ := startCreateEither_fields st j fuel _ (newState, s1) heq
        have hp' : s1.pipelines = st.pipelines := hp
        have hn' : s1.newPipelines = st.newPipelines := hn
        injection h with h
        subst h
        simp [hp', hn']
    · split at h
      · injection h with h
        subst h
        simp
      · injection h with h
        subst h
        simp
      · injection h with h
        subst h
        exact ⟨rfl, rfl⟩
    · split at h
      · injection h with h
        subst h
        simp
      · injection h with h
        subst h
        exact ⟨rfl, rfl⟩
    · injection h with h
      subst h
      exact ⟨rfl, rfl⟩

theorem foldlM_process_totals (fuel : Nat) :
    ∀ (w : List Nat) (st st' : PipelineCache),
      w.foldlM (fun acc j => PipelineCache.processPipeline fuel acc j) st = some st' →
      st'.pipelines.length = st.pipelines.length ∧
      st'.newPipelines = st.newPipelines := by
  intro w
  induction w with
  | nil =>
    intro st st' h
    injection h with h
    subst h
    exact ⟨rfl, rfl⟩
  | cons j t ih =>
    intro st st' h
    simp only [List.foldlM] at h
    cases hj : PipelineCache.processPipeline fuel st j with
    | none => rw [hj] at h; exact Option.noConfusion h
    | some st₁ =>
      rw [hj] at h
      have h' : t.foldlM (fun acc j => PipelineCache.processPipeline fuel acc j) st₁
          = some st' := h
      obtain ⟨h1, h2⟩ := processPipeline_totals fuel st j st₁ hj
      obtain ⟨h3, h4⟩ := ih st₁ st' h'
      exact ⟨by rw [h3, h1], by rw [h4, h2]⟩

theorem mergeFold_fst (news : List CachedPipeline) :
    ∀ (ps : List CachedPipeline) (ws : List Nat),
      (news.foldl
        (fun (pw : List CachedPipeline × List Nat) newPipeline =>
          (pw.1 ++ [newPipeline], insertS pw.1.length pw.2)) (ps, ws)).1
        = ps ++ news := by
  induction news with
  | nil => intro ps ws; simp
  | cons n t ih =>
    intro ps ws
    simpa using ih (ps ++ [n]) (insertS ps.length ws)

theorem processQueue_totals (fuel : Nat) (s s' : PipelineCache)
    (h : PipelineCache.processQueue fuel s = some s') :
    s'.totalEntries = s.totalEntries := by
  unfold PipelineCache.processQueue at h
  obtain ⟨h1, h2⟩ := foldlM_process_totals fuel _ _ _ h
  unfold PipelineCache.totalEntries
  rw [h1, h2]
  simp [mergeFold_fst]

theorem requeuePipeline_newPipelines (s : PipelineCache) (j : Nat) :
    (s.requeuePipeline j).newPipelines = s.newPipelines := by
  unfold PipelineCache.requeuePipeline
  cases s.pipelines[j]? <;> rfl

theorem foldl_requeue_totals (q : List Nat) :
    ∀ (s : PipelineCache),
      (q.foldl PipelineCache.requeuePipeline s).totalEntries = s.totalEntries := by
  induction q with
  | nil => intro s; rfl
  | cons j t ih =>
    intro s
    rw [List.foldl_cons, ih]
    unfold PipelineCache.totalEntries
    rw [requeuePipeline_length, requeuePipeline_newPipelines]

theorem cacheOp_totals_ge (s : PipelineCache) (op : CacheOp) :
    s.totalEntries ≤ (CacheOp.apply s op).totalEntries := by
  cases op with
  | queueRender d =>
    simp only [CacheOp.apply, PipelineCache.queueRenderPipeline,
      PipelineCache.totalEntries, List.length_append, List.length_cons,
      List.length_nil]
    omega
  | queueCompute d =>
    simp only [CacheOp.apply, PipelineCache.queueComputePipeline,
      PipelineCache.totalEntries, List.length_append, List.length_cons,
      List.length_nil]
    omega
  | advance fuel =>
    cases hq : PipelineCache.processQueue fuel s with
    | none => simp [CacheOp.apply, hq]
    | some s' => simp [CacheOp.apply, hq, processQueue_totals fuel s s' hq]
  | installShader fuel id shader =>
    cases hq : PipelineCache.setShader fuel id shader s with
    | none => simp [CacheOp.apply, hq]
    | some s' =>
      simp only [CacheOp.apply, hq, Option.getD]
      unfold PipelineCache.setShader at hq
      cases hs : ShaderCache.setShader fuel id shader s.shaderCache with
      | none => rw [hs] at hq; exact Option.noConfusion hq
      | some r =>
        rw [hs] at hq
        injection hq with hq
        subst hq
        rw [foldl_requeue_totals]
        exact Nat.le_refl _
  | dropShader fuel id =>
    cases hq : PipelineCache.removeShader fuel id s with
    | none => simp [CacheOp.apply, hq]
    | some s' =>
      simp only [CacheOp.apply, hq, Option.getD]
      unfold PipelineCache.removeShader at hq
      cases hs : ShaderCache.remove fuel id s.shaderCache with
      | none => rw [hs] at hq; exact Option.noConfusion hq
      | some r =>
        rw [hs] at hq
        injection hq with hq
        subst hq
        rw [foldl_requeue_totals]
        exact Nat.le_refl _

theorem runOps_totals_ge (ops : List CacheOp) :
    ∀ (s : PipelineCache), s.totalEntries ≤ (runOps s ops).totalEntries := by
  induction ops with
  | nil => intro s; exact Nat.le_refl _
  | cons op t ih =>
    intro s
    exact Nat.le_trans (cacheOp_totals_ge s op) (ih (CacheOp.apply s op))

/-- C4: a submission always appends a fresh `Queued` entry to the pending
queue without touching (or deduplicating against) existing entries, and
returns a handle equal to the main-table length plus the pending-queue length
at call time; render and compute submissions draw from that one shared
counter, so a render handle and a compute handle issued at different times —
with any public operations in between — never share a numeric value. -/
theorem claim_C4_submission_handles (s : PipelineCache)
    (d : RenderPipelineDescriptor) (d' : ComputePipelineDescriptor)
    (ops ops' : List CacheOp) :
    ((s.queueRenderPipeline d).1.id = s.pipelines.length + s.newPipelines.length ∧
      (s.queueRenderPipeline d).2.pipelines = s.pipelines ∧
      (s.queueRenderPipeline d).2.newPipelines = s.newPipelines ++
        [{ descriptor := .renderPipelineDescriptor d, state := .queued }]) ∧
    ((s.queueComputePipeline d').1.id = s.pipelines.length + s.newPipelines.length ∧
      (s.queueComputePipeline d').2.pipelines = s.pipelines ∧
      (s.queueComputePipeline d').2.newPipelines = s.newPipelines ++
        [{ descriptor := .computePipelineDescriptor d', state := .queued }]) ∧
    ((runOps (s.queueRenderPipeline d).2 ops).queueComputePipeline d').1.id ≠
      (s.queueRenderPipeline d).1.id ∧
    ((runOps (s.queueComputePipeline d').2 ops').queueRenderPipeline d).1.id ≠
      (s.queueComputePipeline d').1.id := by
  have hqr : (s.queueRenderPipeline d).2.totalEntries = s.totalEntries + 1 := by
    simp [PipelineCache.queueRenderPipeline, PipelineCache.totalEntries]
    omega
  have hqc : (s.queueComputePipeline d').2.totalEntries = s.totalEntries + 1 := by
    simp [PipelineCache.queueComputePipeline, PipelineCache.totalEntries]
    omega
  refine ⟨⟨rfl, rfl, rfl⟩, ⟨rfl, rfl, rfl⟩, ?_, ?_⟩
  · have hge := runOps_totals_ge ops (s.queueRenderPipeline d).2
    rw [hqr] at hge
    have : (((runOps (s.queueRenderPipeline d).2 ops).queueComputePipeline d').1).id
        = (runOps (s.queueRenderPipeline d).2 ops).totalEntries := rfl
    rw [this]
    have hid : (s.queueRenderPipeline d).1.id = s.totalEntries := rfl
    rw [hid]
    omega
  · have hge := runOps_totals_ge ops' (s.queueComputePipeline d').2
    rw [hqc] at hge
    have : (((runOps (s.queueComputePipeline d').2 ops').queueRenderPipeline d).1).id
        = (runOps (s.queueComputePipeline d').2 ops').totalEntries := rfl
    rw [this]
    have hid : (s.queueComputePipeline d').1.id = s.totalEntries := rfl
    rw [hid]
    omega

theorem processPipeline_getElem_ne (fuel : Nat) (st st' : PipelineCache) (j i : Nat)
    (hne : i ≠ j) (h : PipelineCache.processPipeline fuel st j = some st') :
    st'.pipelines[i]? = st.pipelines[i]? := by
  unfold PipelineCache.processPipeline at h
  split at h
  · injection h with h
    subst h
    rfl
  · split at h
    · split at h
      · exact Option.noConfusion h
      · rename_i newState s1 heq
        have hp : s1.pipelines = st.pipelines :=
          (startCreateEither_fields st j fuel _ (newState, s1) heq).1
        injection h with h
        subst h
        show (s1.pipelines.set j _)[i]? = _
        rw [List.getElem?_set_ne (Ne.symm hne), hp]
    · split at h
      · injection h with h
        subst h
        show (st.pipelines.set j _)[i]? = _
        rw [List.getElem?_set_ne (Ne.symm hne)]
      · injection h with h
        subst h
        show (st.pipelines.set j _)[i]? = _
        rw [List.getElem?_set_ne (Ne.symm hne)]
      · injection h with h
        subst h
        rfl
    · split at h
      · injection h with h
        subst h
        show (st.pipelines.set j _)[i]? = _
        rw [List.getElem?_set_ne (Ne.symm hne)]
      · injection h with h
        subst h
        rfl
    · injection h with h
      subst h
      rfl

theorem processPipeline_fatal (fuel : Nat) (st : PipelineCache) (j : Nat)
    (entry : CachedPipeline) (err : PipelineCacheError)
    (hj : st.pipelines[j]? = some entry) (hs : entry.state = .err err)
    (hf : err.retryable = false) :
    PipelineCache.processPipeline fuel st j = some st := by
  simp [PipelineCache.processPipeline, hj, hs, hf]

theorem processPipeline_retryable (fuel : Nat) (st : PipelineCache) (j : Nat)
    (entry : CachedPipeline) (err : PipelineCacheError)
    (hj : st.pipelines[j]? = some entry) (hs : entry.state = .err err)
    (hr : err.retryable = true) :
    PipelineCache.processPipeline fuel st j =
      some { st with pipelines := st.pipelines.set j { entry with state := .queued },
                     waitingPipelines := insertS j st.waitingPipelines } := by
  simp [PipelineCache.processPipeline, hj, hs, hr]

theorem foldlM_process_notmem (fuel i : Nat) :
    ∀ (w : List Nat) (st st' : PipelineCache), i ∉ w →
      w.foldlM (fun acc j => PipelineCache.processPipeline fuel acc j) st = some st' →
      st'.pipelines[i]? = st.pipelines[i]? := by
  intro w
  induction w with
  | nil =>
    intro st st' _ h
    injection h with h
    subst h
    rfl
  | cons j t ih =>
    intro st st' hmem h
    simp only [List.foldlM] at h
    cases hj : PipelineCache.processPipeline fuel st j with
    | none => rw [hj] at h; exact Option.noConfusion h
    | some st₁ =>
      rw [hj] at h
      have h' : t.foldlM (fun acc j => PipelineCache.processPipeline fuel acc j) st₁
          = some st' := h
      have hne : i ≠ j := fun hc => hmem (hc ▸ List.mem_cons_self j t)
      rw [ih st₁ st' (fun hc => hmem (List.mem_cons_of_mem _ hc)) h']
      exact processPipeline_getElem_ne fuel st st₁ j i hne hj

theorem foldlM_process_fatal (fuel i : Nat) (e : CachedPipeline)
    (err : PipelineCacheError) (hs : e.state = .err err) (hf : err.retryable = false) :
    ∀ (w : List Nat) (st st' : PipelineCache),
      st.pipelines[i]? = some e →
      w.foldlM (fun acc j => PipelineCache.processPipeline fuel acc j) st = some st' →
      st'.pipelines[i]? = some e := by
  intro w
  induction w with
  | nil =>
    intro st st' hi h
    injection h with h
    subst h
    exact hi
  | cons j t ih =>
    intro st st' hi h
    simp only [List.foldlM] at h
    cases hj : PipelineCache.processPipeline fuel st j with
    | none => rw [hj] at h; exact Option.noConfusion h
    | some st₁ =>
      rw [hj] at h
      have h' : t.foldlM (fun acc j => PipelineCache.processPipeline fuel acc j) st₁
          = some st' := h
      by_cases hij : i = j
      · subst hij
        rw [processPipeline_fatal fuel st i e err hi hs hf] at hj
        injection hj with hj
        subst hj
        exact ih st st' hi h'
      · have hkeep : st₁.pipelines[i]? = some e := by
          rw [processPipeline_getElem_ne fuel st st₁ j i hij hj]
          exact hi
        exact ih st₁ st' hkeep h'

theorem foldlM_process_retryable (fuel i : Nat) (e : CachedPipeline)
    (err : PipelineCacheError) (hs : e.state = .err err) (hr : err.retryable = true) :
    ∀ (w : List Nat) (st st' : PipelineCache),
      i ∈ w → w.Nodup → st.pipelines[i]? = some e →
      w.foldlM (fun acc j => PipelineCache.processPipeline fuel acc j) st = some st' →
      st'.pipelines[i]? = some { e with state := .queued } := by
  intro w
  induction w with
  | nil => intro st st' hmem; cases hmem
  | cons j t ih =>
    intro st st' hmem hnd hi h
    simp only [List.foldlM] at h
    cases hj : PipelineCache.processPipeline fuel st j with
    | none => rw [hj] at h; exact Option.noConfusion h
    | some st₁ =>
      rw [hj] at h
      have h' : t.foldlM (fun acc j => PipelineCache.processPipeline fuel acc j) st₁
          = some st' := h
      by_cases hij : i = j
      · subst hij
        rw [processPipeline_retryable fuel st i e err hi hs hr] at hj
        injection hj with hj
        have hlen : i < st.pipelines.length := by
          rcases List.getElem?_eq_some.mp hi with ⟨w, _⟩
          exact w
        have hq : st₁.pipelines[i]? = some { e with state := .queued } := by
          rw [← hj]
          show (st.pipelines.set i _)[i]? = _
          exact List.getElem?_set_self hlen
        have hnotmem : i ∉ t := (List.nodup_cons.mp hnd).1
        rw [foldlM_process_notmem fuel i t st₁ st' hnotmem h']
        exact hq
      · have hkeep : st₁.pipelines[i]? = some e := by
          rw [processPipeline_getElem_ne fuel st st₁ j i hij hj]
          exact hi
        have hmem' : i ∈ t := by
          rcases List.mem_cons.mp hmem with rfl | hm
          · exact absurd rfl hij
          · exact hm
        exact ih st₁ st' hmem' (List.nodup_cons.mp hnd).2 hkeep h'

theorem mergeFold_waiting_mem (news : List CachedPipeline) (i : Nat) :
    ∀ (ps : List CachedPipeline) (ws : List Nat), i ∈ ws →
      i ∈ (news.foldl
        (fun (pw : List CachedPipeline × List Nat) newPipeline =>
          (pw.1 ++ [newPipeline], insertS pw.1.length pw.2)) (ps, ws)).2 := by
  induction news with
  | nil => intro ps ws h; exact h
  | cons n t ih =>
    intro ps ws h
    exact ih (ps ++ [n]) (insertS ps.length ws) (mem_of_mem_insertS h)

theorem mergeFold_waiting_nodup (news : List CachedPipeline) :
    ∀ (ps : List CachedPipeline) (ws : List Nat), ws.Nodup →
      ((news.foldl
        (fun (pw : List CachedPipeline × List Nat) newPipeline =>
          (pw.1 ++ [newPipeline], insertS pw.1.length pw.2)) (ps, ws)).2).Nodup := by
  induction news with
  | nil => intro ps ws h; exact h
  | cons n t ih =>
    intro ps ws h
    exact ih (ps ++ [n]) (insertS ps.length ws) (nodup_insertS _ h)

theorem merged_getElem (s : PipelineCache) (i : Nat) (e : CachedPipeline)
    (hi : s.pipelines[i]? = some e) :
    ((s.newPipelines.foldl
      (fun (pw : List CachedPipeline × List Nat) newPipeline =>
        (pw.1 ++ [newPipeline], insertS pw.1.length pw.2))
      (s.pipelines, s.waitingPipelines)).1)[i]? = some e := by
  rw [mergeFold_fst]
  have hlen : i < s.pipelines.length := by
    rcases List.getElem?_eq_some.mp hi with ⟨w, _⟩
    exact w
  rw [List.getElem?_append_left hlen]
  exact hi

theorem processQueue_fatal (fuel : Nat) (s s' : PipelineCache) (i : Nat)
    (e : CachedPipeline) (err : PipelineCacheError)
    (hi : s.pipelines[i]? = some e) (hs : e.state = .err err)
    (hf : err.retryable = false)
    (h : PipelineCache.processQueue fuel s = some s') :
    s'.pipelines[i]? = some e := by
  unfold PipelineCache.processQueue at h
  exact foldlM_process_fatal fuel i e err hs hf _ _ _ (merged_getElem s i e hi) h

theorem processQueue_retryable (fuel : Nat) (s s' : PipelineCache) (i : Nat)
    (e : CachedPipeline) (err : PipelineCacheError)
    (hi : s.pipelines[i]? = some e) (hs : e.state = .err err)
    (hr : err.retryable = true)
    (hw : i ∈ s.waitingPipelines) (hnd : s.waitingPipelines.Nodup)
    (h : PipelineCache.processQueue fuel s = some s') :
    s'.pipelines[i]? = some { e with state := .queued } := by
  unfold PipelineCache.processQueue at h
  exact foldlM_process_retryable fuel i e err hs hr _ _ _
    (mergeFold_waiting_mem s.newPipelines i s.pipelines s.waitingPipelines hw)
    (mergeFold_waiting_nodup s.newPipelines s.pipelines s.waitingPipelines hnd)
    (merged_getElem s i e hi) h

theorem processQueueN_fatal (fuel i : Nat) (e : CachedPipeline)
    (err : PipelineCacheError) (hs : e.state = .err err) (hf : err.retryable = false) :
    ∀ (n : Nat) (s s' : PipelineCache), s.pipelines[i]? = some e →
      PipelineCache.processQueueN fuel n s = some s' → s'.pipelines[i]? = some e := by
  intro n
  induction n with
  | zero =>
    intro s s' hi h
    injection h with h
    subst h
    exact hi
  | succ n ih =>
    intro s s' hi h
    unfold PipelineCache.processQueueN at h
    cases hq : PipelineCache.processQueue fuel s with
    | none => rw [hq] at h; exact Option.noConfusion h
    | some s₁ =>
      rw [hq] at h
      exact ih s₁ s' (processQueue_fatal fuel s s₁ i e err hi hs hf hq) h

/-- C1: an entry whose state is `Err` with a fatal kind (external-compiler
rejection or device shader-module creation error) is never changed again by
any number of advance passes; an entry whose state is `Err` with a retryable
kind (`ShaderNotLoaded` or `ShaderImportNotYetAvailable`), sitting in the
waiting set as `process_pipeline` leaves it, is reset to `Queued` by the next
advance pass. -/
theorem claim_C1_failure_classification (fuel : Nat) (s : PipelineCache) (i : Nat)
    (e : CachedPipeline) (err : PipelineCacheError)
    (hi : s.pipelines[i]? = some e) (hs : e.state = .err err) :
    (err.retryable = false →
      ∀ (n : Nat) (s' : PipelineCache),
        PipelineCache.processQueueN fuel n s = some s' →
        s'.pipelines[i]? = some e) ∧
    (err.retryable = true → i ∈ s.waitingPipelines → s.waitingPipelines.Nodup →
      ∀ s', PipelineCache.processQueue fuel s = some s' →
        s'.pipelines[i]? = some { e with state := .queued }) := by
  constructor
  · intro hf n s' h
    exact processQueueN_fatal fuel i e err hs hf n s s' hi h
  · intro hr hw hnd s' h
    exact processQueue_retryable fuel s s' i e err hi hs hr hw hnd h

/-- Witness for C1: a concrete fatally failed entry survives two advance
passes unchanged, and a concrete retryably failed entry is back to `Queued`
after one advance pass. -/
theorem claim_C1_failure_classification_witness :
    pcFatalAfter.pipelines[0]? =
      some { descriptor := .renderPipelineDescriptor renderDescriptor7,
             state := .err (.processShaderError "rejected") } ∧
    pcRetryAfter.pipelines[0]? =
      some { descriptor := .renderPipelineDescriptor renderDescriptor7,
             state := .queued } := by
  constructor
  · exact (claim_C1_failure_classification 1 pcFatal 0
      { descriptor := .renderPipelineDescriptor renderDescriptor7,
        state := .err (.processShaderError "rejected") }
      (.processShaderError "rejected") rfl rfl).1 rfl 2 pcFatalAfter rfl
  · exact (claim_C1_failure_classification 1 pcRetry 0
      { descriptor := .renderPipelineDescriptor renderDescriptor7,
        state := .err .shaderImportNotYetAvailable }
      .shaderImportNotYetAvailable rfl rfl).2 rfl (by decide) (by decide)
      pcRetryAfter rfl

/-- C3 counterexample: a retryable `Failed` state is observable by a
producer. From a fresh synchronous cache, submit a render pipeline whose
vertex shader (id 7) has no installed source and run one advance pass: the
state query now returns `Err(ShaderNotLoaded(7))`, a retryable kind, refuting
the claim that retryable failures are never surfaced by `state_of`. -/
theorem claim_C3_counterexample :
    (PipelineCache.processQueue 1
        ((PipelineCache.new 4 true).queueRenderPipeline renderDescriptor7).2).map
      (fun s => s.getRenderPipelineState ⟨0⟩)
      = some (.err (.shaderNotLoaded 7)) ∧
    (PipelineCacheError.shaderNotLoaded 7).retryable = true :=
  ⟨rfl, rfl⟩

/-- C3 (amended): a retryable `Failed` state is observable by `state_of` only
in the window between the advance pass that recorded it and the next advance
pass: for an entry in the waiting set, the next advance pass resets it to
`Queued`, so the query no longer reports the retryable failure. -/
theorem claim_C3_amended_retryable_window (fuel : Nat) (s : PipelineCache)
    (i : Nat) (err : PipelineCacheError)
    (hobs : s.getRenderPipelineState ⟨i⟩ = .err err)
    (hr : err.retryable = true)
    (hw : i ∈ s.waitingPipelines) (hnd : s.waitingPipelines.Nodup)
    (s' : PipelineCache) (hq : PipelineCache.processQueue fuel s = some s') :
    s'.getRenderPipelineState ⟨i⟩ = .queued := by
  cases hj : s.pipelines[i]? with
  | none =>
    have hobs' : (match s.pipelines[i]? with
        | none => CachedPipelineState.queued
        | some pipeline => pipeline.state) = .err err := hobs
    rw [hj] at hobs'
    exact CachedPipelineState.noConfusion hobs'
  | some e =>
    have hobs' : (match s.pipelines[i]? with
        | none => CachedPipelineState.queued
        | some pipeline => pipeline.state) = .err err := hobs
    rw [hj] at hobs'
    have hs : e.state = .err err := hobs'
    have hres := processQueue_retryable fuel s s' i e err hj hs hr hw hnd hq
    show (match s'.pipelines[i]? with
      | none => CachedPipelineState.queued
      | some pipeline => pipeline.state) = .queued
    rw [hres]

/-- Witness for C3's amended claim at the concrete retryable cache. -/
theorem claim_C3_amended_retryable_window_witness :
    pcRetryAfter.getRenderPipelineState ⟨0⟩ = .queued :=
  claim_C3_amended_retryable_window 1 pcRetry 0 .shaderImportNotYetAvailable
    rfl rfl (by decide) (by decide) pcRetryAfter rfl

theorem shaderCache_get_hit (fuel msb pipeline id : Nat) (defs : List ShaderDefVal)
    (s : ShaderCache) (shader : Shader) (m : Nat)
    (hsh : alookup s.shaders id = some shader)
    (hcnt : countAssetImports shader.imports =
      countAssetImports ((dataOf s id).resolvedImports.map Prod.fst))
    (hhit : alookup (dataOf s id).processedShaders defs = some m) :
    ShaderCache.get fuel msb pipeline id defs s =
      some (.ok m,
        { s with data := ainsert s.data id (recordPipeline pipeline (dataOf s id)) }) := by
  simp [ShaderCache.get, hsh, hcnt, hhit]

theorem shaderCache_get_miss_ok (fuel msb pipeline id : Nat)
    (defs : List ShaderDefVal) (s : ShaderCache) (shader : Shader) (m : Nat)
    (s' : ShaderCache)
    (hsh : alookup s.shaders id = some shader)
    (hmiss : alookup (dataOf s id).processedShaders defs = none)
    (h : ShaderCache.get fuel msb pipeline id defs s = some (.ok m, s')) :
    m = s.nextModuleId ∧
    s'.nextModuleId = s.nextModuleId + 1 ∧
    s'.shaders = s.shaders ∧
    countAssetImports shader.imports =
      countAssetImports ((dataOf s id).resolvedImports.map Prod.fst) ∧
    alookup s'.data id = some
      { recordPipeline pipeline (dataOf s id) with
        processedShaders :=
          ainsert (dataOf s id).processedShaders defs s.nextModuleId } := by
  unfold ShaderCache.get at h
  split at h
  · rename_i heq
    rw [hsh] at heq
    exact Option.noConfusion heq
  · rename_i shader0 heq
    rw [hsh] at heq
    injection heq with heq
    subst heq
    split at h
    · injection h with h
      injection h with h1 h2
      exact Except.noConfusion h1
    · rename_i hcnt'
      split at h
      · rename_i module hlook
        rw [hmiss] at hlook
        exact Option.noConfusion hlook
      · split at h
        · exact Option.noConfusion h
        · injection h with h
          injection h with h1 h2
          exact Except.noConfusion h1
        · split at h
          · injection h with h
            injection h with h1 h2
            exact Except.noConfusion h1
          · split at h
            · injection h with h
              injection h with h1 h2
              exact Except.noConfusion h1
            · injection h with h
              injection h with h1 h2
              have hm : s.nextModuleId = m := Except.ok.inj h1
              subst h2
              refine ⟨hm.symm, rfl, rfl, not_not.mp hcnt', ?_⟩
              exact alookup_ainsert_self _ _ _

/-- C6: against the same shader identity, two successful module lookups with
the identical ordered definition list return the identical shared
compiled-module instance, the second performing no new device creation; a
successful lookup with the same definitions in a different order is a cache
miss and returns a distinct compiled-module instance. -/
theorem claim_C6_module_identity (fuel msb p1 p2 p3 id : Nat)
    (d d' : List ShaderDefVal) (s s1 s2 s3 : ShaderCache) (shader : Shader)
    (m1 m2 m3 : Nat)
    (hperm : d'.Perm d) (hne : d' ≠ d)
    (hsh : alookup s.shaders id = some shader)
    (h1 : alookup (dataOf s id).processedShaders d = none)
    (h2 : alookup (dataOf s id).processedShaders d' = none)
    (hc1 : ShaderCache.get fuel msb p1 id d s = some (.ok m1, s1))
    (hc2 : ShaderCache.get fuel msb p2 id d s1 = some (.ok m2, s2))
    (hc3 : ShaderCache.get fuel msb p3 id d' s2 = some (.ok m3, s3)) :
    (m2 = m1 ∧ s2.nextModuleId = s1.nextModuleId) ∧ m3 ≠ m1 := by
  obtain ⟨hm1, hnext1, hshaders1, hcnt1, hdata1⟩ :=
    shaderCache_get_miss_ok fuel msb p1 id d s shader m1 s1 hsh h1 hc1
  -- the record stored for `id` after the first (miss) lookup
  set D1 : ShaderData :=
    { recordPipeline p1 (dataOf s id) with
      processedShaders := ainsert (dataOf s id).processedShaders d s.nextModuleId }
    with hD1
  have hdataOf1 : dataOf s1 id = D1 := by
    unfold dataOf
    rw [hdata1]
    rfl
  have hsh1 : alookup s1.shaders id = some shader := by
    rw [hshaders1]
    exact hsh
  have hcnt2 : countAssetImports shader.imports =
      countAssetImports ((dataOf s1 id).resolvedImports.map Prod.fst) := by
    rw [hdataOf1]
    exact hcnt1
  have hhit : alookup (dataOf s1 id).processedShaders d = some m1 := by
    rw [hdataOf1, hD1]
    show alookup (ainsert (dataOf s id).processedShaders d s.nextModuleId) d = some m1
    rw [alookup_ainsert_self, hm1]
  have hc2' := shaderCache_get_hit fuel msb p2 id d s1 shader m1 hsh1 hcnt2 hhit
  rw [hc2'] at hc2
  injection hc2 with hc2
  injection hc2 with hc2a hc2b
  have hm2 : m2 = m1 := (Except.ok.inj hc2a).symm
  have hs2 : s2 = { s1 with data := ainsert s1.data id (recordPipeline p2 (dataOf s1 id)) } :=
    hc2b.symm
  have hnext2 : s2.nextModuleId = s1.nextModuleId := by
    rw [hs2]
  have hsh2 : alookup s2.shaders id = some shader := by
    rw [hs2]
    exact hsh1
  have hdataOf2 : dataOf s2 id = recordPipeline p2 (dataOf s1 id) := by
    rw [hs2]
    unfold dataOf
    show (alookup (ainsert s1.data id (recordPipeline p2 (dataOf s1 id))) id).getD
      ShaderData.empty = _
    rw [alookup_ainsert_self]
    rfl
  have hmiss2 : alookup (dataOf s2 id).processedShaders d' = none := by
    rw [hdataOf2, hdataOf1, hD1]
    show alookup (ainsert (dataOf s id).processedShaders d s.nextModuleId) d' = none
    rw [alookup_ainsert_ne _ _ _ _ hne]
    exact h2
  obtain ⟨hm3, -, -, -, -⟩ :=
    shaderCache_get_miss_ok fuel msb p3 id d' s2 shader m3 s3 hsh2 hmiss2 hc3
  refine ⟨⟨hm2, hnext2⟩, ?_⟩
  rw [hm3, hnext2, hnext1, hm1]
  omega

/-- Witness for C6: against `scC6` (shader 1 installed, nothing compiled),
the lookups under `defsXY`, `defsXY` again, and `defsYX` return module
serials 0, 0 and 1: the repeat lookup shares the instance and the reordered
lookup gets a distinct one. -/
theorem claim_C6_module_identity_witness :
    (c6m2 = c6m1 ∧ c6r2.2.nextModuleId = c6r1.2.nextModuleId) ∧ c6m3 ≠ c6m1 :=
  claim_C6_module_identity 3 4 10 11 12 1 defsXY defsYX scC6 c6r1.2 c6r2.2 c6r3.2
    shaderPlain c6m1 c6m2 c6m3 (by decide) (by decide) rfl rfl rfl rfl rfl rfl

end Bevy
